import Mathlib

/-!
Shallow embedding of `src/poll.py` (Five9 agent-state poller).

The poller performs a strictly linear run: configure a Five9 supervisor
session, fetch the AgentState statistics table, transform the XML response
into a list of flat agent records, and bulk-insert them into Supabase.
We model the parsed XML document as a tree, the three outbound HTTP calls
as an environment supplying their outcomes (`none` standing for a raised
transport fault), and `main` as a function from that environment to the
observable run result: printed status lines, process exit code, whether
each call was issued, and the bulk-insert payload.
-/

namespace Five9Poller

mutual
/-- An `xml.etree.ElementTree` element: a tag, optional text, and a forest
of child elements.  A mutually inductive forest is used so that all
recursions are structural (hence kernel-reducible). -/
inductive XTree where
  | node (tag : String) (text : Option String) (children : XForest)
inductive XForest where
  | fnil
  | fcons (t : XTree) (ts : XForest)
end

/-- Build a forest from a list of trees. -/
def XForest.ofList : List XTree → XForest
  | [] => .fnil
  | c :: cs => .fcons c (XForest.ofList cs)

/-- The element's tag name. -/
def XTree.tag : XTree → String
  | .node t _ _ => t

/-- The element's text (`elem.text`), `none` when absent. -/
def XTree.text : XTree → Option String
  | .node _ x _ => x

mutual
/-- The element's direct children, as a list. -/
def XTree.children : XTree → List XTree
  | .node _ _ cs => cs.toList
def XForest.toList : XForest → List XTree
  | .fnil => []
  | .fcons c cs => c :: cs.toList
end

mutual
/-- All strict descendants of an element in document (preorder) order:
the elements produced by `elem.iter()` minus `elem` itself. -/
def XTree.descendants : XTree → List XTree
  | .node _ _ cs => cs.descList
def XForest.descList : XForest → List XTree
  | .fnil => []
  | .fcons c cs => c :: c.descendants ++ cs.descList
end

/-- The characters after the first `\x7d`, or `none` when there is no
`\x7d`: the character-level reading of `tag.split("\x7d", 1)[1]` guarded by
`"\x7d" in tag`, for the one-character separator `"\x7d"`. -/
def dropThroughBrace : List Char → Option (List Char)
  | [] => none
  | c :: cs => if c = '\x7d' then some cs else dropThroughBrace cs

/-- Python `elem.tag.split("\x7d", 1)[1]` when the tag contains `"\x7d"`, else the
tag unchanged: strips a `\x7bnamespace-uri\x7d` qualification prefix. -/
def stripTag (t : String) : String :=
  match dropThroughBrace t.data with
  | none => t
  | some rest => String.mk rest

mutual
/-- The namespace-stripping loop (`for elem in root.iter(): ...`): rewrite
every tag in the document, the root's included. -/
def XTree.stripTree : XTree → XTree
  | .node t x cs => .node (stripTag t) x cs.stripForest
def XForest.stripForest : XForest → XForest
  | .fnil => .fnil
  | .fcons c cs => .fcons c.stripTree cs.stripForest
end

/-- Python `elem.find(tag)` for a bare tag: the first direct child so tagged. -/
def XTree.findChild (e : XTree) (tag : String) : Option XTree :=
  e.children.find? (fun c => c.tag == tag)

/-- Python `root.findall(".//rows")`: every strict descendant tagged `rows`,
in document order. -/
def findallRows (root : XTree) : List XTree :=
  root.descendants.filter (fun e => e.tag == "rows")

/-- Python `root.find(".//columns/values")`: the first `values` child of a
`columns` descendant, scanning `columns` descendants in document order. -/
def findColumnsValues (root : XTree) : Option XTree :=
  (root.descendants.filter (fun e => e.tag == "columns")).findSome?
    (fun c => c.findChild "values")

/-- Python `[d.text or "" for d in e.findall("data")]`: the texts of the `data`
children, `None` and the empty string both collapsing to `""`. -/
def dataTexts (e : XTree) : List String :=
  (e.children.filter (fun c => c.tag == "data")).map (fun d => d.text.getD "")

/-- Lookup in the Python dict built by inserting the pairs in order
(a later pair with the same key overwrites an earlier one). -/
def dictGet? : List (String × String) → String → Option String
  | [], _ => none
  | p :: ps, k =>
    match dictGet? ps k with
    | some v => some v
    | none => if p.1 = k then some p.2 else none

/-- Python `dict(zip(columns, values)).get(k, "")`: the row's field mapping with
the missing-field-defaults-to-empty-string rule. -/
def agentGetD (cols vals : List String) (k : String) : String :=
  (dictGet? (cols.zip vals) k).getD ""

/-- Python `dict(zip(columns, values)).get("State")`: the row's `State` field,
`none` when absent. -/
def stateOf (cols vals : List String) : Option String :=
  dictGet? (cols.zip vals) "State"

/-- The normalized record appended to `rows` in `main`: ten fixed fields,
all strings, the capture timestamp first. -/
structure AgentRecord where
  snapshot_ts : String
  username : String
  full_name : String
  state : String
  reason_code : String
  state_since : String
  state_duration : String
  campaign_name : String
  call_type : String
  media_availability : String
deriving DecidableEq

/-- The record literal of `main` lines 86-97: each field is an
`agent.get(key, "")` lookup, plus the run-wide `snapshot_ts`. -/
def rowRecord (ts : String) (cols vals : List String) : AgentRecord :=
  ⟨ts,
   agentGetD cols vals "Username",
   agentGetD cols vals "Full Name",
   agentGetD cols vals "State",
   agentGetD cols vals "Reason Code",
   agentGetD cols vals "State Since",
   agentGetD cols vals "State Duration",
   agentGetD cols vals "Campaign Name",
   agentGetD cols vals "Call Type",
   agentGetD cols vals "Media Availability"⟩

/-- The `State` field a row node yields: `none` when the row has no
`values` child or the mapping lacks a `State` key. -/
def rowState (cols : List String) (rn : XTree) : Option String :=
  (rn.findChild "values").bind (fun vn => stateOf cols (dataTexts vn))

/-- One iteration of the row loop (`main` lines 76-97): skip the row when
it has no `values` child or its `State` equals `"Logged Out"`, else emit
the normalized record. -/
def rowOutput (ts : String) (cols : List String) (rn : XTree) : Option AgentRecord :=
  match rn.findChild "values" with
  | none => none
  | some vn =>
    if stateOf cols (dataTexts vn) = some "Logged Out" then none
    else some (rowRecord ts cols (dataTexts vn))

/-- The whole row loop: the normalized record list, in row order. -/
def transform (ts : String) (cols : List String) (root : XTree) : List AgentRecord :=
  (findallRows root).filterMap (rowOutput ts cols)

/-- Outcomes of the (up to three) outbound HTTP calls of one run, plus the
run's capture instant and formatted elapsed time.  `none` for a call means
the transport raised (timeout, DNS, connection reset) instead of returning
a response.  A returned `getStatistics` response carries the parse outcome
of its body text: `some` the parsed document, or `none` when the body is
not well-formed XML (then `ET.fromstring` raises).  A returned Supabase
response carries its body text. -/
structure Env where
  sessionResp : Option Nat
  statsResp : Option (Nat × Option XTree)
  storeResp : Option (Nat × String)
  snapshot_ts : String
  elapsed : String

/-- The observable outcome of one run: the status lines printed to stdout,
the process exit code, whether the run died of an uncaught exception,
which outbound calls were issued, and the bulk-insert payload (empty when
no insert was issued). -/
structure RunResult where
  printed : List String
  exitCode : Nat
  crashed : Bool
  statsCalled : Bool
  storeCalled : Bool
  storeRecords : List AgentRecord
deriving DecidableEq

/-- Function `main` of `src/poll.py`.  A transport fault (`none` call
outcome), or a 200 statistics response whose body fails to parse as XML
(`ET.fromstring`, line 64), kills the process with an uncaught traceback:
nothing printed to stdout, exit 1. -/
def main (env : Env) : RunResult :=
  match env.sessionResp with
  | none => ⟨[], 1, true, false, false, []⟩
  | some s1 =>
    if s1 ≠ 200 then
      ⟨["FAIL: Session setup returned " ++ toString s1], 1, false, false, false, []⟩
    else
      match env.statsResp with
      | none => ⟨[], 1, true, true, false, []⟩
      | some (s2, body) =>
        if s2 ≠ 200 then
          ⟨["FAIL: getStatistics returned " ++ toString s2], 1, false, true, false, []⟩
        else
          match body with
          | none => ⟨[], 1, true, true, false, []⟩
          | some doc =>
            let root := doc.stripTree
            match findColumnsValues root with
            | none => ⟨["FAIL: No columns in response"], 1, false, true, false, []⟩
            | some cnode =>
              let columns := dataTexts cnode
              let rows := transform env.snapshot_ts columns root
              if rows.isEmpty then
                ⟨["OK: 0 active agents (all logged out)"], 0, false, true, false, []⟩
              else
                match env.storeResp with
                | none => ⟨[], 1, true, true, true, rows⟩
                | some (s3, rbody) =>
                  if s3 ≠ 200 ∧ s3 ≠ 201 then
                    ⟨["FAIL: Supabase returned " ++ toString s3 ++ ": " ++ rbody.take 300],
                     1, false, true, true, rows⟩
                  else
                    ⟨["OK: " ++ toString rows.length ++ " agents written | " ++ env.elapsed ++ "s"],
                     0, false, true, true, rows⟩

/-- A human-readable status line: an `"OK: ..."` or `"FAIL: ..."` line
(stated over the character lists, which keeps the predicate computable by
structural recursion). -/
def isStatusLine (s : String) : Bool :=
  "OK: ".data.isPrefixOf s.data || "FAIL: ".data.isPrefixOf s.data

/-! Concrete test fixtures: builders for the XML shapes the Five9 response
uses, and sample environments. -/

/-- A `<data>` element holding a text value. -/
def dataNode (s : String) : XTree := .node "data" (some s) .fnil

/-- A `<values>` element holding `<data>` children. -/
def valuesOf (vs : List String) : XTree :=
  .node "values" none (.ofList (vs.map dataNode))

/-- A `<rows>` element holding one `<values>` list. -/
def rowOf (vs : List String) : XTree := .node "rows" none (.ofList [valuesOf vs])

/-- The `<columns>` element holding the header `<values>` list. -/
def columnsOf (ns : List String) : XTree :=
  .node "columns" none (.ofList [valuesOf ns])

/-- A statistics response body: a column definition plus row elements. -/
def respOf (cols : List String) (rws : List (List String)) : XTree :=
  .node "env" none (.ofList (columnsOf cols :: rws.map rowOf))

/-- A run whose statistics response is well-formed but has zero rows. -/
def envEmpty : Env := ⟨some 200, some (200, some (respOf ["State"] [])), none, "T0", "0.0"⟩

/-- A run whose session-configuration call raises a transport fault. -/
def envFault : Env := ⟨none, none, none, "T0", "0.0"⟩

/-- A fully successful run: one active agent, one logged-out agent,
store accepts with 201. -/
def envOk : Env :=
  ⟨some 200,
   some (200, some (respOf ["Username", "State"] [["alice", "Ready"], ["bob", "Logged Out"]])),
   some (201, ""), "T0", "0.3"⟩

/-- A run whose statistics call returns 200 with a body that does not
parse as XML. -/
def envBadXml : Env := ⟨some 200, some (200, none), some (201, ""), "T0", "0.0"⟩

/-- A run whose session-configuration call returns HTTP 500. -/
def envSess500 : Env := ⟨some 500, none, none, "T0", "0.0"⟩

/-- A run whose statistics response has no column-definition node. -/
def envNoCols : Env :=
  ⟨some 200, some (200, some (XTree.node "env" none .fnil)), some (201, ""), "T0", "0.0"⟩

/-! Helper lemmas. -/

/-- `dictGet?` misses when no pair carries the key. -/
lemma dictGet?_eq_none (ps : List (String × String)) (k : String)
    (h : ∀ p ∈ ps, p.1 ≠ k) : dictGet? ps k = none := by
  induction ps with
  | nil => rfl
  | cons p ps ih =>
    have h2 : dictGet? ps k = none := ih (fun q hq => h q (List.mem_cons_of_mem _ hq))
    have h1 : p.1 ≠ k := h p (List.mem_cons_self _ _)
    simp [dictGet?, h2, h1]

/-- Unfolding equation for `dictGet?` on a cons cell. -/
lemma dictGet?_cons (p : String × String) (ps : List (String × String)) (k : String) :
    dictGet? (p :: ps) k =
      match dictGet? ps k with
      | some v => some v
      | none => if p.1 = k then some p.2 else none := rfl

/-- With pairwise-distinct headers, the zipped dict pairs by index. -/
lemma dictGet?_zip_get : ∀ (cols : List String), cols.Nodup →
    ∀ (vals : List String) (i : Nat) (h1 : i < cols.length) (h2 : i < vals.length),
    dictGet? (cols.zip vals) (cols.get ⟨i, h1⟩) = some (vals.get ⟨i, h2⟩) := by
  intro cols
  induction cols with
  | nil => intro _ vals i h1 _; exact absurd h1 (by simp)
  | cons c cs ih =>
    intro hnd vals i h1 h2
    cases vals with
    | nil => exact absurd h2 (by simp)
    | cons v vs =>
      obtain ⟨hc, hcs⟩ := List.nodup_cons.mp hnd
      cases i with
      | zero =>
        have hnone : dictGet? (cs.zip vs) c = none := by
          apply dictGet?_eq_none
          intro p hp hpc
          exact hc (hpc ▸ (List.of_mem_zip hp).1)
        show dictGet? ((c, v) :: cs.zip vs) c = some v
        simp [dictGet?, hnone]
      | succ i =>
        have h1i : i < cs.length := by simpa using h1
        have h2i : i < vs.length := by simpa using h2
        have hk := ih hcs vs i h1i h2i
        have hzip : (c :: cs).zip (v :: vs) = (c, v) :: cs.zip vs := rfl
        have hget1 : (c :: cs).get ⟨i + 1, h1⟩ = cs.get ⟨i, h1i⟩ := rfl
        have hget2 : (v :: vs).get ⟨i + 1, h2⟩ = vs.get ⟨i, h2i⟩ := rfl
        rw [hzip, hget1, hget2, dictGet?_cons, hk]

/-- With pairwise-distinct headers, a header at an index past the value
list's length has no entry in the zipped dict. -/
lemma dictGet?_zip_get_none : ∀ (cols : List String), cols.Nodup →
    ∀ (vals : List String) (i : Nat) (h1 : i < cols.length), vals.length ≤ i →
    dictGet? (cols.zip vals) (cols.get ⟨i, h1⟩) = none := by
  intro cols
  induction cols with
  | nil => intro _ vals i h1 _; exact absurd h1 (by simp)
  | cons c cs ih =>
    intro hnd vals i h1 hle
    cases vals with
    | nil => rfl
    | cons v vs =>
      obtain ⟨hc, hcs⟩ := List.nodup_cons.mp hnd
      cases i with
      | zero => exact absurd hle (by simp)
      | succ i =>
        have h1i : i < cs.length := by simpa using h1
        have hin : dictGet? (cs.zip vs) (cs.get ⟨i, h1i⟩) = none :=
          ih hcs vs i h1i (by simpa using hle)
        have hne : c ≠ cs.get ⟨i, h1i⟩ := fun he => hc (he ▸ List.get_mem cs i h1i)
        have hzip : (c :: cs).zip (v :: vs) = (c, v) :: cs.zip vs := rfl
        have hget1 : (c :: cs).get ⟨i + 1, h1⟩ = cs.get ⟨i, h1i⟩ := rfl
        rw [hzip, hget1, dictGet?_cons, hin]
        exact if_neg hne

/-- Zipping truncates the value list at the header's length. -/
lemma zip_take_right : ∀ (cols vals : List String),
    cols.zip vals = cols.zip (vals.take cols.length) := by
  intro cols
  induction cols with
  | nil => intro vals; rfl
  | cons c cs ih =>
    intro vals
    cases vals with
    | nil => rfl
    | cons v vs =>
      show (c, v) :: cs.zip vs = (c, v) :: cs.zip (vs.take cs.length)
      rw [← ih vs]

/-- `filterMap` ignores elements the function sends to `none`, so a filter
keeping at least the productive elements does not change the result. -/
lemma filterMap_filter_eq {α β : Type} (f : α → Option β) (p : α → Bool)
    (h : ∀ a, p a = false → f a = none) :
    ∀ l : List α, l.filterMap f = (l.filter p).filterMap f := by
  intro l
  induction l with
  | nil => rfl
  | cons a as ih =>
    cases hp : p a with
    | true => simp [List.filter_cons, hp, List.filterMap_cons, ih]
    | false => simp [List.filter_cons, hp, List.filterMap_cons, h a hp, ih]

/-- A string starting with `"OK: "` or `"FAIL: "` is a status line. -/
lemma isStatusLine_true (s : String)
    (h : "OK: ".data.isPrefixOf s.data = true ∨ "FAIL: ".data.isPrefixOf s.data = true) :
    isStatusLine s = true := by
  unfold isStatusLine
  rcases h with h | h
  · simp [h]
  · simp [h]

/-- The boolean prefix test is stable under extending the tested list on
the right. -/
lemma prefixOf_extend (q : List Char) : ∀ (l r : List Char),
    q.isPrefixOf l = true → q.isPrefixOf (l ++ r) = true := by
  induction q with
  | nil => intro l r _; simp
  | cons a as ih =>
    intro l r h
    cases l with
    | nil => simp [List.isPrefixOf] at h
    | cons b bs =>
      simp only [List.cons_append, List.isPrefixOf_cons₂, Bool.and_eq_true] at h ⊢
      exact ⟨h.1, ih bs r h.2⟩

/-- A character-list prefix of a string stays a prefix after appending
more text to the string. -/
lemma statusData_extend (q : List Char) (p x : String)
    (h : q.isPrefixOf p.data = true) : q.isPrefixOf (p ++ x).data = true := by
  rw [String.data_append]
  exact prefixOf_extend q p.data x.data h

/-- C1 (counterexample): the claim "a normalized record is emitted for a
row if and only if the row's State field is present and not `Logged Out`"
is false on the code: with Column Header `["Username", "State"]` and the
short row `["alice"]`, the State field is absent from the row's mapping,
yet the row is emitted. -/
theorem C1_counterexample :
    ¬ (∀ (ts : String) (cols : List String) (rn : XTree),
        (rowOutput ts cols rn).isSome = true ↔
          (rowState cols rn ≠ none ∧ rowState cols rn ≠ some "Logged Out")) := by
  intro h
  have h2 := (h "T0" ["Username", "State"] (rowOf ["alice"])).mp rfl
  exact h2.1 rfl

/-- C1 (amended): a normalized record is emitted for a row if and only if
the row has a value-list child and its State field does not map to the
sentinel `"Logged Out"`; in particular a `Logged Out` row never produces a
record, but a row whose State field is absent is still emitted (its
`state` defaulting to the empty string). -/
theorem C1_emission_rule (ts : String) (cols : List String) (rn : XTree) :
    ((rowOutput ts cols rn).isSome = true ↔
      ((rn.findChild "values").isSome = true ∧ rowState cols rn ≠ some "Logged Out")) ∧
    (rowState cols rn = some "Logged Out" → rowOutput ts cols rn = none) := by
  unfold rowOutput rowState
  cases hfc : rn.findChild "values" with
  | none => simp
  | some vn =>
    by_cases hs : stateOf cols (dataTexts vn) = some "Logged Out"
    · simp [hs]
    · simp [hs]

/-- C1 (amended, witness): a concrete `Logged Out` row is not emitted. -/
theorem C1_emission_rule_witness :
    rowOutput "T0" ["State"] (rowOf ["Logged Out"]) = none :=
  (C1_emission_rule "T0" ["State"] (rowOf ["Logged Out"])).2 rfl

/-- C2: for a header sequence of pairwise-distinct field names, the row's
field mapping (with empty-string default) pairs positionally: the header
at index `i` maps to the value at index `i`, and a header entry beyond the
value list's length maps to the empty string. -/
theorem C2_header_pairing (cols vals : List String) (hnd : cols.Nodup)
    (i : Nat) (h1 : i < cols.length) :
    (∀ h2 : i < vals.length, agentGetD cols vals (cols.get ⟨i, h1⟩) = vals.get ⟨i, h2⟩) ∧
    (vals.length ≤ i → agentGetD cols vals (cols.get ⟨i, h1⟩) = "") := by
  constructor
  · intro h2
    unfold agentGetD
    rw [dictGet?_zip_get cols hnd vals i h1 h2]
    rfl
  · intro hle
    unfold agentGetD
    rw [dictGet?_zip_get_none cols hnd vals i h1 hle]
    rfl

/-- C2 (witness): the spec's own example, Column Header `[A, B, C]` with
row values `[x, y]`: the mapping gives `A→x`, `B→y`, `C→""`. -/
theorem C2_header_pairing_witness :
    agentGetD ["A", "B", "C"] ["x", "y"] "A" = "x" ∧
    agentGetD ["A", "B", "C"] ["x", "y"] "B" = "y" ∧
    agentGetD ["A", "B", "C"] ["x", "y"] "C" = "" := by
  refine ⟨?_, ?_, ?_⟩
  · exact (C2_header_pairing ["A", "B", "C"] ["x", "y"] (by decide) 0 (by decide)).1 (by decide)
  · exact (C2_header_pairing ["A", "B", "C"] ["x", "y"] (by decide) 1 (by decide)).1 (by decide)
  · exact (C2_header_pairing ["A", "B", "C"] ["x", "y"] (by decide) 2 (by decide)).2 (by decide)

/-- C9: a row node with no value-list child is skipped silently: it
contributes no record, and the transform's output equals the transform of
the row list restricted to rows that do have a value-list child. -/
theorem C9_missing_values_skipped :
    (∀ (ts : String) (cols : List String) (rn : XTree),
      rn.findChild "values" = none → rowOutput ts cols rn = none) ∧
    (∀ (ts : String) (cols : List String) (root : XTree),
      transform ts cols root =
        ((findallRows root).filter
          (fun rn => (rn.findChild "values").isSome)).filterMap (rowOutput ts cols)) := by
  have h1 : ∀ (ts : String) (cols : List String) (rn : XTree),
      rn.findChild "values" = none → rowOutput ts cols rn = none := by
    intro ts cols rn h
    unfold rowOutput
    rw [h]
  refine ⟨h1, ?_⟩
  intro ts cols root
  unfold transform
  apply filterMap_filter_eq
  intro rn hp
  cases hfc : rn.findChild "values" with
  | none => exact h1 ts cols rn hfc
  | some v => simp [hfc] at hp

/-- C9 (witness): a concrete row with no `values` child yields nothing. -/
theorem C9_missing_values_skipped_witness :
    rowOutput "T0" ["State"] (XTree.node "rows" none .fnil) = none :=
  C9_missing_values_skipped.1 "T0" ["State"] (XTree.node "rows" none .fnil) rfl

/-- C10: a value list longer than the header sequence produces the same
normalized record (and the same State lookup) as the value list truncated
to the header's length: the extra trailing values are discarded. -/
theorem C10_extra_values_truncated (ts : String) (cols vals : List String)
    (h : cols.length ≤ vals.length) :
    rowRecord ts cols vals = rowRecord ts cols (vals.take cols.length) ∧
    stateOf cols vals = stateOf cols (vals.take cols.length) := by
  constructor
  · unfold rowRecord agentGetD
    rw [zip_take_right cols vals]
  · unfold stateOf
    rw [zip_take_right cols vals]

/-- C10 (witness): a concrete over-long row equals its truncation. -/
theorem C10_extra_values_truncated_witness :
    rowRecord "T0" ["Username"] ["alice", "extra"] =
      rowRecord "T0" ["Username"] (["alice", "extra"].take 1) :=
  (C10_extra_values_truncated "T0" ["Username"] ["alice", "extra"] (by decide)).1

/-- C3: when the run reaches the transformer (both upstream calls returned
200 and the column definition is present) and the transformed record list
is empty, the run exits 0, prints the zero-agents line, and issues no
request to the Snapshot Store. -/
theorem C3_empty_short_circuit (env : Env) (tree cnode : XTree)
    (h1 : env.sessionResp = some 200) (h2 : env.statsResp = some (200, some tree))
    (h3 : findColumnsValues tree.stripTree = some cnode)
    (h4 : transform env.snapshot_ts (dataTexts cnode) tree.stripTree = []) :
    (main env).exitCode = 0 ∧ (main env).storeCalled = false ∧
    (main env).printed = ["OK: 0 active agents (all logged out)"] := by
  obtain ⟨sr, str, stor, ts, el⟩ := env
  simp only at h1 h2 h4
  subst h1 h2
  simp [main, h3, h4]

/-- C3 (witness): a concrete run with a well-formed, zero-row statistics
response exits 0 without contacting the store. -/
theorem C3_empty_short_circuit_witness :
    (main envEmpty).exitCode = 0 ∧ (main envEmpty).storeCalled = false ∧
    (main envEmpty).printed = ["OK: 0 active agents (all logged out)"] :=
  C3_empty_short_circuit envEmpty (respOf ["State"] []) (valuesOf ["State"]) rfl rfl rfl rfl

/-- C4 (counterexample): the claim "every run, regardless of outcome,
prints exactly one status line" is false on the code: a run whose
session-configuration call raises a transport fault dies of an uncaught
exception and prints no status line at all, and likewise a run whose
statistics call returns 200 with a body that does not parse as XML. -/
theorem C4_counterexample :
    (¬ (∀ env : Env, (main env).printed.length = 1 ∧
        ∀ l ∈ (main env).printed, isStatusLine l = true)) ∧
    (main envFault).printed = [] ∧ (main envBadXml).printed = [] := by
  refine ⟨?_, rfl, rfl⟩
  intro h
  have h2 := (h envFault).1
  simp [main, envFault] at h2

/-- C4 (amended): every run whose issued outbound calls all complete
without a transport fault, and whose statistics response is not a 200
carrying a body that fails to parse as XML, prints exactly one status line
(an `"OK: ..."` or a `"FAIL: ..."` line) and nothing else; a run hit by a
transport fault, or by an unparseable 200 statistics body, dies of an
uncaught exception with no status line printed. -/
theorem C4_single_status_line (env : Env) :
    (env.sessionResp.isSome = true → env.statsResp.isSome = true →
      env.statsResp ≠ some (200, none) →
      env.storeResp.isSome = true →
      ((main env).printed.length = 1 ∧
        ∀ l ∈ (main env).printed, isStatusLine l = true)) ∧
    ((main env).crashed = true → (main env).printed = []) := by
  obtain ⟨sr, str, stor, ts, el⟩ := env
  cases sr with
  | none => simp [main]
  | some s1 =>
    by_cases hs1 : s1 = 200
    · subst hs1
      cases str with
      | none => simp [main]
      | some p =>
        obtain ⟨s2, body⟩ := p
        by_cases hs2 : s2 = 200
        · subst hs2
          cases body with
          | none => simp [main]
          | some doc =>
            cases hcv : findColumnsValues doc.stripTree with
            | none =>
              simp [main, hcv]
              intro _
              apply isStatusLine_true
              exact Or.inr (by decide)
            | some cnode =>
              by_cases he : (transform ts (dataTexts cnode) doc.stripTree).isEmpty = true
              · simp [main, hcv, he]
                intro _
                apply isStatusLine_true
                exact Or.inl (by decide)
              · cases stor with
                | none => simp [main, hcv, he]
                | some q =>
                  obtain ⟨s3, rbody⟩ := q
                  by_cases ha : s3 = 200 ∨ s3 = 201
                  · have hcond : ¬(s3 ≠ 200 ∧ s3 ≠ 201) := by tauto
                    simp [main, hcv, he, hcond]
                    apply isStatusLine_true
                    exact Or.inl (statusData_extend _ _ _ (statusData_extend _ _ _
                      (statusData_extend _ _ _ (statusData_extend _ _ _ (by decide)))))
                  · have hcond : s3 ≠ 200 ∧ s3 ≠ 201 := by tauto
                    simp [main, hcv, he, hcond]
                    apply isStatusLine_true
                    exact Or.inr (statusData_extend _ _ _ (statusData_extend _ _ _
                      (statusData_extend _ _ _ (by decide))))
        · simp [main, hs2]
          intro _
          apply isStatusLine_true
          exact Or.inr (statusData_extend _ _ _ (by decide))
    · simp [main, hs1]
      intro _ _ _
      apply isStatusLine_true
      exact Or.inr (statusData_extend _ _ _ (by decide))

/-- C4 (amended, witness): a concrete fault-free run with a parsed 200
statistics body prints exactly one status line. -/
theorem C4_single_status_line_witness :
    (main envOk).printed.length = 1 ∧
    ∀ l ∈ (main envOk).printed, isStatusLine l = true :=
  (C4_single_status_line envOk).1 rfl rfl (by simp [envOk]) rfl

/-- Every record the transformer emits carries the timestamp it was
given. -/
lemma mem_transform_ts (ts : String) (cols : List String) (root : XTree)
    (r : AgentRecord) (hr : r ∈ transform ts cols root) : r.snapshot_ts = ts := by
  unfold transform at hr
  rw [List.mem_filterMap] at hr
  obtain ⟨rn, _, hout⟩ := hr
  unfold rowOutput at hout
  split at hout
  · exact absurd hout (by simp)
  · split at hout
    · exact absurd hout (by simp)
    · have h2 := Option.some.inj hout
      rw [← h2]
      rfl

/-- The bulk-insert payload of a run is either empty or the output of the
transformer run at the environment's single capture instant. -/
lemma storeRecords_shape (env : Env) :
    (main env).storeRecords = [] ∨
    ∃ cols root, (main env).storeRecords = transform env.snapshot_ts cols root := by
  obtain ⟨sr, str, stor, ts, el⟩ := env
  cases sr with
  | none => exact Or.inl rfl
  | some s1 =>
    by_cases hs1 : s1 = 200
    · subst hs1
      cases str with
      | none => exact Or.inl rfl
      | some p =>
        obtain ⟨s2, body⟩ := p
        by_cases hs2 : s2 = 200
        · subst hs2
          cases body with
          | none => exact Or.inl rfl
          | some doc =>
            cases hcv : findColumnsValues doc.stripTree with
            | none => exact Or.inl (by simp [main, hcv])
            | some cnode =>
              by_cases he : (transform ts (dataTexts cnode) doc.stripTree).isEmpty = true
              · exact Or.inl (by simp [main, hcv, he])
              · cases stor with
                | none =>
                  refine Or.inr ⟨dataTexts cnode, doc.stripTree, ?_⟩
                  simp [main, hcv, he]
                | some q =>
                  obtain ⟨s3, rbody⟩ := q
                  by_cases hc : s3 ≠ 200 ∧ s3 ≠ 201
                  · refine Or.inr ⟨dataTexts cnode, doc.stripTree, ?_⟩
                    simp [main, hcv, he, hc]
                  · refine Or.inr ⟨dataTexts cnode, doc.stripTree, ?_⟩
                    simp [main, hcv, he, hc]
        · exact Or.inl (by simp [main, hs2])
    · exact Or.inl (by simp [main, hs1])

/-- C5: every record the transformer produces carries the timestamp the
run was given, and every record in a run's bulk-insert payload carries the
run's single capture instant — so all records of one run share it. -/
theorem C5_timestamp_sharing :
    (∀ (ts : String) (cols : List String) (root : XTree) (r : AgentRecord),
      r ∈ transform ts cols root → r.snapshot_ts = ts) ∧
    (∀ (env : Env) (r : AgentRecord),
      r ∈ (main env).storeRecords → r.snapshot_ts = env.snapshot_ts) := by
  refine ⟨mem_transform_ts, ?_⟩
  intro env r hr
  rcases storeRecords_shape env with h | ⟨cols, root, h⟩
  · rw [h] at hr
    cases hr
  · rw [h] at hr
    exact mem_transform_ts _ _ _ _ hr

/-- C5 (witness): the record a concrete successful run inserts carries the
run's capture instant. -/
theorem C5_timestamp_sharing_witness :
    (rowRecord "T0" ["Username", "State"] ["alice", "Ready"]).snapshot_ts = "T0" :=
  C5_timestamp_sharing.2 envOk
    (rowRecord "T0" ["Username", "State"] ["alice", "Ready"]) (by decide)

/-- C6: once the run reaches the bulk insert, it succeeds exactly when the
store answers 200 or 201: then the run exits 0 and prints the record
count; otherwise it exits 1 with a diagnostic carrying the status code and
the response body truncated to 300 characters. -/
theorem C6_store_status (env : Env) (tree cnode : XTree) (s3 : Nat) (rbody : String)
    (h1 : env.sessionResp = some 200) (h2 : env.statsResp = some (200, some tree))
    (h3 : findColumnsValues tree.stripTree = some cnode)
    (h4 : transform env.snapshot_ts (dataTexts cnode) tree.stripTree ≠ [])
    (h5 : env.storeResp = some (s3, rbody)) :
    ((s3 = 200 ∨ s3 = 201) →
      (main env).exitCode = 0 ∧ (main env).storeCalled = true ∧
      (main env).printed =
        ["OK: " ++
          toString (transform env.snapshot_ts (dataTexts cnode) tree.stripTree).length ++
          " agents written | " ++ env.elapsed ++ "s"]) ∧
    ((s3 ≠ 200 ∧ s3 ≠ 201) →
      (main env).exitCode = 1 ∧ (main env).storeCalled = true ∧
      (main env).printed =
        ["FAIL: Supabase returned " ++ toString s3 ++ ": " ++ rbody.take 300]) := by
  obtain ⟨sr, str, stor, ts, el⟩ := env
  dsimp only at h1 h2 h4 h5
  subst h1 h2 h5
  have he : (transform ts (dataTexts cnode) tree.stripTree).isEmpty = false := by
    cases htr : transform ts (dataTexts cnode) tree.stripTree with
    | nil => exact absurd htr h4
    | cons a as => rfl
  constructor
  · intro hok
    have hcond : ¬(s3 ≠ 200 ∧ s3 ≠ 201) := by tauto
    simp [main, h3, he, hcond]
  · intro hbad
    simp [main, h3, he, hbad]

/-- C6 (witness): a concrete run with one surviving record and a 201 store
response exits 0 and prints a count of 1. -/
theorem C6_store_status_witness :
    (main envOk).exitCode = 0 ∧
    (main envOk).printed = ["OK: 1 agents written | 0.3s"] := by
  have h := (C6_store_status envOk
      (respOf ["Username", "State"] [["alice", "Ready"], ["bob", "Logged Out"]])
      (valuesOf ["Username", "State"]) 201 "" rfl rfl rfl (by decide) rfl).1 (Or.inr rfl)
  exact ⟨h.1, by rw [h.2.2]; decide⟩

/-- C7: a non-200 from the session-configuration call, or from the
statistics fetch, terminates the run with exit code 1 and a diagnostic
naming the offending status code, issuing no further outbound calls. -/
theorem C7_upstream_fatal :
    (∀ (env : Env) (s1 : Nat), env.sessionResp = some s1 → s1 ≠ 200 →
      (main env).exitCode = 1 ∧
      (main env).printed = ["FAIL: Session setup returned " ++ toString s1] ∧
      (main env).statsCalled = false ∧ (main env).storeCalled = false) ∧
    (∀ (env : Env) (s2 : Nat) (body : Option XTree), env.sessionResp = some 200 →
      env.statsResp = some (s2, body) → s2 ≠ 200 →
      (main env).exitCode = 1 ∧
      (main env).printed = ["FAIL: getStatistics returned " ++ toString s2] ∧
      (main env).storeCalled = false) := by
  constructor
  · intro env s1 h1 hne
    obtain ⟨sr, str, stor, ts, el⟩ := env
    dsimp only at h1
    subst h1
    simp [main, hne]
  · intro env s2 body h1 h2 hne
    obtain ⟨sr, str, stor, ts, el⟩ := env
    dsimp only at h1 h2
    subst h1 h2
    simp [main, hne]

/-- C7 (witness): a concrete run whose session call returns 500 exits 1,
names 500, and performs no further calls. -/
theorem C7_upstream_fatal_witness :
    (main envSess500).exitCode = 1 ∧
    (main envSess500).printed = ["FAIL: Session setup returned " ++ toString 500] ∧
    (main envSess500).statsCalled = false ∧ (main envSess500).storeCalled = false :=
  C7_upstream_fatal.1 envSess500 500 rfl (by decide)

/-- C8: a statistics response (HTTP 200, both upstream calls fine) whose
document contains no `columns` node makes the run print a diagnostic and
exit 1 — a graceful termination, not an uncaught crash — and the Snapshot
Store is never contacted. -/
theorem C8_no_columns (env : Env) (tree : XTree)
    (h1 : env.sessionResp = some 200) (h2 : env.statsResp = some (200, some tree))
    (h3 : ∀ e ∈ tree.stripTree.descendants, e.tag ≠ "columns") :
    (main env).printed = ["FAIL: No columns in response"] ∧
    (main env).exitCode = 1 ∧ (main env).crashed = false ∧
    (main env).storeCalled = false := by
  have hcv : findColumnsValues tree.stripTree = none := by
    unfold findColumnsValues
    have hf : tree.stripTree.descendants.filter (fun e => e.tag == "columns") = [] := by
      rw [List.filter_eq_nil_iff]
      intro a ha
      simpa using h3 a ha
    rw [hf]
    rfl
  obtain ⟨sr, str, stor, ts, el⟩ := env
  dsimp only at h1 h2
  subst h1 h2
  simp [main, hcv]

/-- C8 (witness): a concrete columnless response is rejected gracefully. -/
theorem C8_no_columns_witness :
    (main envNoCols).printed = ["FAIL: No columns in response"] ∧
    (main envNoCols).exitCode = 1 ∧ (main envNoCols).crashed = false ∧
    (main envNoCols).storeCalled = false :=
  C8_no_columns envNoCols (XTree.node "env" none .fnil) rfl rfl (by decide)

end Five9Poller
